import Mathlib

/-!
Shallow embedding of the rpi-rf-mqtt bridge (src/rpi-rf-mqtt.py).

Side effects of a handler run (RF transmissions via send_code, MQTT
publishes via client.publish) are recorded as an ordered event list.
Python exceptions (ValueError from int(), KeyError from dict indexing,
AttributeError from a never-assigned attribute, TypeError from len(None))
are modelled by an error-carrying state monad in which mutations and
events performed before the raise persist, exactly as in Python.
-/

/-- Python exception kinds that the embedded code can raise. -/
inductive PyErr where
  | valueError
  | keyError
  | attributeError
  | typeError
deriving DecidableEq

/-- JSON-like values, for discovery payloads (json.dumps input). -/
inductive JVal where
  | s (v : String)
  | i (v : Int)
  | arr (vs : List JVal)
  | obj (fields : List (String × JVal))

/-- A value passed as the payload argument of client.publish: the Python
code passes either a str, an int (the brightness), or a dict serialized
with json.dumps (discovery). -/
inductive PubVal where
  | s (v : String)
  | i (v : Int)
  | j (v : List (String × JVal))

/-- An observable side effect: an RF transmission (the arguments the
entity passes to send_code) or an MQTT publish. -/
inductive Event where
  | transmit (code rf_protocol : Int) (rf_pulse_length rf_repeat : Option Int)
  | publish (topic : String) (payload : PubVal) (retain : Bool)

/-- Association-list lookup, modelling Python dict[key] access
(the caller decides whether a miss is a KeyError). -/
def dictLookup (d : List (String × Int)) (k : String) : Option Int :=
  (d.find? (fun p => p.1 == k)).map (fun p => p.2)

/-- Python dict.update with a single key: replace the value if the key is
present (keeping its position), otherwise append the new pair. -/
def dictUpdate (d : List (String × Int)) (k : String) (v : Int) :
    List (String × Int) :=
  if d.any (fun p => p.1 == k) then
    d.map (fun p => if p.1 == k then (k, v) else p)
  else
    d ++ [(k, v)]

/-- Python dict merge (a | b): keys of a in order, values overridden by b
where b has the key, then the keys of b that are new, in order. -/
def dictMergeJ (a b : List (String × JVal)) : List (String × JVal) :=
  a.map (fun p =>
    match b.find? (fun q => q.1 == p.1) with
    | some q => q
    | none => p)
  ++ b.filter (fun q => !(a.any (fun p => p.1 == q.1)))

/-- Validity of the tail of a Python decimal digit string: digits with
single underscores allowed only between digits. -/
def pyDigitsAux : List Char → Bool
  | [] => true
  | '_' :: c :: rest => c.isDigit && pyDigitsAux rest
  | c :: rest => c.isDigit && pyDigitsAux rest

/-- Validity of a Python decimal digit string: nonempty, starts with a
digit, underscores only between digits. -/
def pyDigitsOk : List Char → Bool
  | [] => false
  | c :: rest => c.isDigit && pyDigitsAux rest

/-- Numeric value of a digit list (underscores already removed). -/
def digitsToNat (cs : List Char) : Nat :=
  cs.foldl (fun acc c => acc * 10 + (c.toNat - 48)) 0

/-- Model of Python int(str) on a decoded payload: strip surrounding
whitespace, optional sign, then a decimal digit string (Python also
allows single underscores between digits); none models a ValueError. -/
def pyInt (s : String) : Option Int :=
  let cs := ((s.data.dropWhile Char.isWhitespace).reverse.dropWhile
    Char.isWhitespace).reverse
  match cs with
  | '+' :: rest =>
    if pyDigitsOk rest then
      some (digitsToNat (rest.filter (fun c => c != '_')) : Int)
    else none
  | '-' :: rest =>
    if pyDigitsOk rest then
      some (-(digitsToNat (rest.filter (fun c => c != '_')) : Int))
    else none
  | rest =>
    if pyDigitsOk rest then
      some (digitsToNat (rest.filter (fun c => c != '_')) : Int)
    else none

/-- build_device_info: the shared device descriptor. -/
def buildDeviceInfo (hostname mac : String) : JVal :=
  .obj [("identifiers", .arr [.s hostname]),
        ("name", .s hostname),
        ("connections", .arr [.arr [.s "mac", .s mac]])]

/-- MqttEntity.__init__ state topic: topic_pre/hostname/entity_id. -/
def stateTopicOf (tp hostname entity_id : String) : String :=
  tp ++ "/" ++ hostname ++ "/" ++ entity_id

/-- MqttEntity.__init__ command topic: state topic + "/set". -/
def commandTopicOf (tp hostname entity_id : String) : String :=
  stateTopicOf tp hostname entity_id ++ "/set"

/-- MqttEntity.__init__ discovery topic. -/
def discoveryTopicOf (dp component hostname entity_id : String) : String :=
  dp ++ "/" ++ component ++ "/" ++ hostname ++ "/" ++ entity_id ++ "/config"

/-- MqttEntity.build_discovery: the shared part of the payload. -/
def baseDiscovery (name icon unique_id : String) (device : JVal) :
    List (String × JVal) :=
  [("name", .s name), ("icon", .s icon), ("unique_id", .s unique_id),
   ("device", device)]

/-- The Switch entity (class Switch), fields as set by __init__. -/
structure Switch where
  name : String
  icon : String
  state_topic : String
  command_topic : String
  discovery_topic : String
  unique_id : String
  device : JVal
  rf_code_on : Int
  rf_code_off : Int
  rf_protocol : Int
  rf_pulse_length : Option Int
  rf_repeat : Option Int

/-- Switch.__init__ (with MqttEntity.__init__ inlined): the topic strings
are derived from the configured topic prefix, hostname and entity id. -/
def Switch.init (tp dp hostname mac entity_id name icon : String)
    (rf_code_on rf_code_off rf_protocol : Int)
    (rf_pulse_length rf_repeat : Option Int) : Switch :=
  { name := name, icon := icon,
    state_topic := stateTopicOf tp hostname entity_id,
    command_topic := commandTopicOf tp hostname entity_id,
    discovery_topic := discoveryTopicOf dp "switch" hostname entity_id,
    unique_id := hostname ++ "_" ++ entity_id,
    device := buildDeviceInfo hostname mac,
    rf_code_on := rf_code_on, rf_code_off := rf_code_off,
    rf_protocol := rf_protocol, rf_pulse_length := rf_pulse_length,
    rf_repeat := rf_repeat }

/-- Switch.build_discovery. -/
def Switch.buildDiscovery (self : Switch) : List (String × JVal) :=
  dictMergeJ (baseDiscovery self.name self.icon self.unique_id self.device)
    [("state_topic", .s self.state_topic),
     ("command_topic", .s self.command_topic)]

/-- Switch.handle_message: on the command topic, "ON" transmits the
on-code and publishes "ON" retained; "OFF" symmetrically; anything else
does nothing. A Switch never mutates and never raises. -/
def Switch.handleMessage (self : Switch) (topic payload : String) :
    List Event :=
  if topic = self.command_topic then
    if payload = "ON" then
      [.transmit self.rf_code_on self.rf_protocol self.rf_pulse_length
         self.rf_repeat,
       .publish self.state_topic (.s payload) true]
    else if payload = "OFF" then
      [.transmit self.rf_code_off self.rf_protocol self.rf_pulse_length
         self.rf_repeat,
       .publish self.state_topic (.s payload) true]
    else []
  else []

/-- The LightSwitch entity (class LightSwitch). Fields that __init__
assigns only conditionally (effects and the two effect topics) are
Options, none modelling the attribute never having been set, so that
reading it raises AttributeError. state and brightness_state are the
runtime state, initially None. -/
structure LightSwitch where
  name : String
  icon : String
  state_topic : String
  command_topic : String
  discovery_topic : String
  unique_id : String
  device : JVal
  state : Option String
  brightness_state : Option Int
  rf_code_on : Int
  rf_code_off : Int
  rf_protocol : Int
  rf_pulse_length : Option Int
  rf_repeat : Option Int
  brightness_state_topic : String
  brightness_command_topic : String
  brightness_codes : Option (List Int)
  effects : Option (List (String × Int))
  effect_state_topic : Option String
  effect_command_topic : Option String

/-- LightSwitch.__init__ (with MqttEntity.__init__ inlined). The effect
fields are populated only when a non-empty effects mapping is configured,
in which case the sentinel pair ("Off", -1) is added by effects.update. -/
def LightSwitch.init (tp dp hostname mac entity_id name icon : String)
    (rf_code_on rf_code_off : Int) (brightness_codes : Option (List Int))
    (effects : Option (List (String × Int))) (rf_protocol : Int)
    (rf_pulse_length rf_repeat : Option Int) : LightSwitch :=
  let st := stateTopicOf tp hostname entity_id
  let hasEff := match effects with
    | none => false
    | some e => decide (e.length > 0)
  { name := name, icon := icon,
    state_topic := st,
    command_topic := commandTopicOf tp hostname entity_id,
    discovery_topic := discoveryTopicOf dp "light" hostname entity_id,
    unique_id := hostname ++ "_" ++ entity_id,
    device := buildDeviceInfo hostname mac,
    state := none, brightness_state := none,
    rf_code_on := rf_code_on, rf_code_off := rf_code_off,
    rf_protocol := rf_protocol, rf_pulse_length := rf_pulse_length,
    rf_repeat := rf_repeat,
    brightness_state_topic := st ++ "/brightness",
    brightness_command_topic := st ++ "/brightness" ++ "/set",
    brightness_codes := brightness_codes,
    effects := if hasEff then
        some (dictUpdate (effects.getD []) "Off" (-1))
      else none,
    effect_state_topic := if hasEff then some (st ++ "/effect") else none,
    effect_command_topic := if hasEff then
        some (st ++ "/effect" ++ "/set")
      else none }

/-- Result of running a LightSwitch method: the value (or the raised
exception), the possibly mutated self, and the events emitted so far
(both persist across a raise, as in Python). -/
inductive PyRes (α : Type) where
  | ok (a : α) (st : LightSwitch) (evs : List Event)
  | err (e : PyErr) (st : LightSwitch) (evs : List Event)

/-- State-and-exception monad over a LightSwitch and an event trace. -/
def PyM (α : Type) : Type := LightSwitch → List Event → PyRes α

def PyM.pure (a : α) : PyM α := fun st evs => .ok a st evs

def PyM.bind (m : PyM α) (f : α → PyM β) : PyM β := fun st evs =>
  match m st evs with
  | .ok a st' evs' => f a st' evs'
  | .err e st' evs' => .err e st' evs'

instance : Monad PyM where
  pure := PyM.pure
  bind := PyM.bind

/-- Raise a Python exception. -/
def PyM.raise (e : PyErr) : PyM α := fun st evs => .err e st evs

/-- Read self. -/
def PyM.getSelf : PyM LightSwitch := fun st evs => .ok st st evs

/-- Mutate self. -/
def PyM.setSelf (st : LightSwitch) : PyM Unit := fun _ evs => .ok () st evs

/-- Record a side effect (transmission or publish). -/
def PyM.emit (e : Event) : PyM Unit := fun st evs => .ok () st (evs ++ [e])

/-- Read an attribute that __init__ may never have assigned: none raises
AttributeError. -/
def PyM.attr (a : Option α) : PyM α := fun st evs =>
  match a with
  | some v => .ok v st evs
  | none => .err .attributeError st evs

/-- Python int(payload): a ValueError when the payload does not parse. -/
def PyM.toInt (payload : String) : PyM Int := fun st evs =>
  match pyInt payload with
  | some v => .ok v st evs
  | none => .err .valueError st evs

/-- LightSwitch.send_action: send_code with this entity's RF settings. -/
def LightSwitch.sendActionM (rf_code : Int) : PyM Unit := do
  let self ← PyM.getSelf
  PyM.emit (.transmit rf_code self.rf_protocol self.rf_pulse_length
    self.rf_repeat)

/-- LightSwitch.send_brightness: decrement the 1-based level, check it
against the bounds of brightness_codes (len(None) is a TypeError), and
transmit the indexed code on success. -/
def LightSwitch.sendBrightnessM (brightness : Int) : PyM Bool := do
  let b := brightness - 1
  let self ← PyM.getSelf
  let codes ← match self.brightness_codes with
    | none => PyM.raise .typeError
    | some cs => PyM.pure cs
  if (codes.length : Int) > b ∧ b ≥ 0 then
    LightSwitch.sendActionM (codes.getD b.toNat 0)
    PyM.pure true
  else
    PyM.pure false

/-- LightSwitch.set_brightness: on a successful send, publish the level
(an int payload) retained to the brightness state topic and "OFF"
retained to the effect state topic (AttributeError if never assigned). -/
def LightSwitch.setBrightnessM (brightness : Int) : PyM Unit := do
  let success ← LightSwitch.sendBrightnessM brightness
  if success then
    let self ← PyM.getSelf
    PyM.emit (.publish self.brightness_state_topic (.i brightness) true)
    let est ← PyM.attr self.effect_state_topic
    PyM.emit (.publish est (.s "OFF") true)
  else
    PyM.pure ()

/-- LightSwitch.handle_message, line for line: self-observation of the
state and brightness-state topics, the ON/OFF command branch, the
brightness-command branch with its race fix, and the effect branch
(whose topic comparison already reads the possibly missing
effect_command_topic attribute). -/
def LightSwitch.handleMessageM (topic payload : String) : PyM Unit := do
  let self ← PyM.getSelf
  if topic = self.state_topic then
    PyM.setSelf { self with state := some payload }
  let self ← PyM.getSelf
  if topic = self.brightness_state_topic then
    let v ← PyM.toInt payload
    PyM.setSelf { self with brightness_state := some v }
  let self ← PyM.getSelf
  if topic = self.command_topic then
    if payload = "ON" then
      LightSwitch.sendActionM self.rf_code_on
      if self.state = some "OFF" ∧ self.brightness_state ≠ none then
        let _ ← LightSwitch.sendBrightnessM (self.brightness_state.getD 0)
        PyM.pure ()
      PyM.emit (.publish self.state_topic (.s payload) true)
    else if payload = "OFF" then
      LightSwitch.sendActionM self.rf_code_off
      PyM.emit (.publish self.state_topic (.s payload) true)
  let self ← PyM.getSelf
  if topic = self.brightness_command_topic then
    if self.state ≠ some "ON" then
      PyM.setSelf { self with state := some "ON" }
      LightSwitch.sendActionM self.rf_code_on
      PyM.emit (.publish self.state_topic (.s "ON") true)
    let brightness ← PyM.toInt payload
    LightSwitch.setBrightnessM brightness
  let self ← PyM.getSelf
  let ect ← PyM.attr self.effect_command_topic
  if topic = ect then
    if payload = "Off" then
      let lvl : Int := match self.brightness_state with
        | none => 1
        | some v => if v = 0 then 1 else v
      LightSwitch.setBrightnessM lvl
      let est ← PyM.attr self.effect_state_topic
      PyM.emit (.publish est (.s "OFF") true)
    else
      let effs ← PyM.attr self.effects
      match dictLookup effs payload with
      | none => PyM.raise .keyError
      | some rf_code =>
        LightSwitch.sendActionM rf_code
        let est ← PyM.attr self.effect_state_topic
        PyM.emit (.publish est (.s payload) true)

/-- Run LightSwitch.send_brightness alone from a clean event trace. -/
def LightSwitch.sendBrightness (self : LightSwitch) (brightness : Int) :
    PyRes Bool :=
  LightSwitch.sendBrightnessM brightness self []

/-- Outcome of one handle_message call on a LightSwitch. -/
structure HR where
  err : Option PyErr
  self : LightSwitch
  events : List Event

/-- Run LightSwitch.handle_message from a clean event trace. -/
def LightSwitch.handleMessage (self : LightSwitch) (topic payload : String) :
    HR :=
  match LightSwitch.handleMessageM topic payload self [] with
  | .ok _ st evs => ⟨none, st, evs⟩
  | .err e st evs => ⟨some e, st, evs⟩

/-- LightSwitch.build_discovery. The dict literal is evaluated top to
bottom: len(self.brightness_codes) (a TypeError when the code list is
None) comes before the reads of the effect attributes (an AttributeError
when effects were not configured). -/
def LightSwitch.buildDiscovery (self : LightSwitch) :
    Except PyErr (List (String × JVal)) := do
  let codes ← match self.brightness_codes with
    | none => Except.error .typeError
    | some cs => Except.ok cs
  let effs ← match self.effects with
    | none => Except.error .attributeError
    | some e => Except.ok e
  let est ← match self.effect_state_topic with
    | none => Except.error .attributeError
    | some t => Except.ok t
  let ect ← match self.effect_command_topic with
    | none => Except.error .attributeError
    | some t => Except.ok t
  Except.ok (dictMergeJ
    (baseDiscovery self.name self.icon self.unique_id self.device)
    [("state_topic", .s self.state_topic),
     ("command_topic", .s self.command_topic),
     ("brightness_state_topic", .s self.brightness_state_topic),
     ("brightness_command_topic", .s self.brightness_command_topic),
     ("brightness_scale", .i codes.length),
     ("effect_list", .arr (effs.map (fun p => .s p.1))),
     ("effect_state_topic", .s est),
     ("effect_command_topic", .s ect)])

/-- LightSwitch.subscribe: the base-class command-topic subscription,
the state and brightness topics, then the effect command topic, whose
read raises AttributeError when effects were not configured. -/
def LightSwitch.subscribeTopics (self : LightSwitch) :
    Except PyErr (List String) := do
  let ect ← match self.effect_command_topic with
    | none => Except.error .attributeError
    | some t => Except.ok t
  Except.ok [self.command_topic, self.state_topic,
    self.brightness_state_topic, self.brightness_command_topic, ect]

/-- The Button entity (class Button). -/
structure Button where
  name : String
  icon : String
  state_topic : String
  command_topic : String
  discovery_topic : String
  unique_id : String
  device : JVal
  rf_code : Int
  rf_protocol : Int
  rf_pulse_length : Option Int
  rf_repeat : Option Int

/-- Button.build_discovery. -/
def Button.buildDiscovery (self : Button) : List (String × JVal) :=
  dictMergeJ (baseDiscovery self.name self.icon self.unique_id self.device)
    [("command_topic", .s self.command_topic)]

/-- Button.handle_message: "PRESS" on the command topic transmits. -/
def Button.handleMessage (self : Button) (topic payload : String) :
    List Event :=
  if topic = self.command_topic then
    if payload = "PRESS" then
      [.transmit self.rf_code self.rf_protocol self.rf_pulse_length
        self.rf_repeat]
    else []
  else []

/-- The closed set of registered entity kinds. -/
inductive Entity where
  | button (b : Button)
  | sw (s : Switch)
  | light (l : LightSwitch)

/-- The entity's discovery topic (always assigned by __init__). -/
def Entity.discoveryTopic : Entity → String
  | .button b => b.discovery_topic
  | .sw s => s.discovery_topic
  | .light l => l.discovery_topic

/-- The entity's build_discovery; only the LightSwitch one can raise. -/
def Entity.buildDiscovery : Entity → Except PyErr (List (String × JVal))
  | .button b => Except.ok b.buildDiscovery
  | .sw s => Except.ok s.buildDiscovery
  | .light l => l.buildDiscovery

/-- Total read of an entity's discovery payload, defaulting to [] when
build_discovery raises (used only to phrase theorems). -/
def Entity.discOr (e : Entity) : List (String × JVal) :=
  match e.buildDiscovery with
  | .ok d => d
  | .error _ => []

/-- MqttEntity.initial_publish: publish the discovery payload, as
json.dumps output, to the discovery topic, NOT retained (the
discovery_topic is always a string here, so the is-not-None guard
always passes). An exception from build_discovery propagates. -/
def Entity.initialPublish (e : Entity) : Except PyErr (List Event) := do
  let d ← e.buildDiscovery
  Except.ok [.publish e.discoveryTopic (.j d) false]

/-- handle_message dispatched on the entity kind; Button and Switch
never mutate and never raise. -/
def Entity.handleMessage (e : Entity) (topic payload : String) :
    Option PyErr × Entity × List Event :=
  match e with
  | .button b => (none, .button b, b.handleMessage topic payload)
  | .sw s => (none, .sw s, s.handleMessage topic payload)
  | .light l =>
    let r := l.handleMessage topic payload
    (r.err, .light r.self, r.events)

/-- The for-loop of on_message over entities: an exception aborts the
loop, keeping the events and entity mutations made so far. -/
def dispatchAll : List Entity → String → String →
    Option PyErr × List Entity × List Event
  | [], _, _ => (none, [], [])
  | e :: rest, topic, payload =>
    match Entity.handleMessage e topic payload with
    | (some err, e', evs) => (some err, e' :: rest, evs)
    | (none, e', evs) =>
      let r := dispatchAll rest topic payload
      (r.1, e' :: r.2.1, evs ++ r.2.2)

/-- publish_entity_discovery_messages: initial_publish for each entity in
registry order; an exception aborts the loop, keeping earlier events. -/
def publishEntityDiscoveryMessages : List Entity →
    Option PyErr × List Event
  | [] => (none, [])
  | e :: rest =>
    match e.initialPublish with
    | .error err => (some err, [])
    | .ok evs =>
      let r := publishEntityDiscoveryMessages rest
      (r.1, evs ++ r.2)

/-- The birth-related part of the configuration (config["ha"]). -/
structure HaConfig where
  birth_topic : Option String
  birth_payload : Option String

/-- The birth test of on_message: the birth topic must be configured and
equal to the message topic, and the payload must equal the configured
birth payload (a str never equals a missing payload, i.e. None). -/
def birthMatch (cfg : HaConfig) (topic payload : String) : Bool :=
  match cfg.birth_topic with
  | none => false
  | some bt =>
    topic == bt &&
      (match cfg.birth_payload with
       | none => false
       | some bp => payload == bp)

/-- on_message: on a birth match, first re-publish every entity's
discovery payload, then (as always) forward the message to every
entity's handle_message. -/
def onMessage (cfg : HaConfig) (es : List Entity) (topic payload : String) :
    Option PyErr × List Entity × List Event :=
  if birthMatch cfg topic payload then
    match publishEntityDiscoveryMessages es with
    | (some err, evs) => (some err, es, evs)
    | (none, evs) =>
      let r := dispatchAll es topic payload
      (r.1, r.2.1, evs ++ r.2.2)
  else
    dispatchAll es topic payload

/-! Helper lemmas: distinctness of the derived topic strings, and
pointwise evaluation lemmas for the PyM monad. -/

theorem str_app_right_inj {s a b : String} (h : s ++ a = s ++ b) : a = b := by
  apply String.ext
  have hd := congrArg String.data h
  simp only [String.data_append] at hd
  exact List.append_cancel_left hd

theorem str_app_ne {a b : String} (h : a ≠ b) (s : String) :
    s ++ a ≠ s ++ b :=
  fun hEq => h (str_app_right_inj hEq)

theorem ne_self_append {B s : String} (h : s ≠ "") : B ++ s ≠ B := by
  intro hEq
  have hd := congrArg String.data hEq
  simp only [String.data_append] at hd
  have hlen := congrArg List.length hd
  simp only [List.length_append] at hlen
  have : s.data = [] := List.eq_nil_of_length_eq_zero (by omega)
  exact h (String.ext this)

theorem bct_ne_state (B : String) : B ++ "/brightness" ++ "/set" ≠ B := by
  rw [String.append_assoc]
  exact ne_self_append (by decide)

theorem bct_ne_bst (B : String) :
    B ++ "/brightness" ++ "/set" ≠ B ++ "/brightness" :=
  ne_self_append (by decide)

theorem bct_ne_cmd (B : String) :
    B ++ "/brightness" ++ "/set" ≠ B ++ "/set" := by
  rw [String.append_assoc]
  exact str_app_ne (by decide) B

theorem bct_ne_ect (B : String) :
    B ++ "/brightness" ++ "/set" ≠ B ++ "/effect" ++ "/set" := by
  rw [String.append_assoc, String.append_assoc]
  exact str_app_ne (by decide) B

theorem ect_ne_state (B : String) : B ++ "/effect" ++ "/set" ≠ B := by
  rw [String.append_assoc]
  exact ne_self_append (by decide)

theorem ect_ne_bst (B : String) :
    B ++ "/effect" ++ "/set" ≠ B ++ "/brightness" := by
  rw [String.append_assoc]
  exact str_app_ne (by decide) B

theorem ect_ne_cmd (B : String) :
    B ++ "/effect" ++ "/set" ≠ B ++ "/set" := by
  rw [String.append_assoc]
  exact str_app_ne (by decide) B

theorem bst_ne_state (B : String) : B ++ "/brightness" ≠ B :=
  ne_self_append (by decide)

theorem bst_ne_cmd (B : String) : B ++ "/brightness" ≠ B ++ "/set" :=
  str_app_ne (by decide) B

@[simp] theorem PyM.bind_app (m : PyM α) (f : α → PyM β)
    (st : LightSwitch) (evs : List Event) :
    (m >>= f) st evs =
      match m st evs with
      | .ok a st2 evs2 => f a st2 evs2
      | .err e st2 evs2 => .err e st2 evs2 := rfl

@[simp] theorem PyM.pure_app (a : α) (st : LightSwitch) (evs : List Event) :
    (Pure.pure (f := PyM) a) st evs = .ok a st evs := rfl

@[simp] theorem PyM.purep_app (a : α) (st : LightSwitch) (evs : List Event) :
    PyM.pure a st evs = .ok a st evs := rfl

@[simp] theorem PyM.getSelf_app (st : LightSwitch) (evs : List Event) :
    PyM.getSelf st evs = .ok st st evs := rfl

@[simp] theorem PyM.setSelf_app (st st0 : LightSwitch) (evs : List Event) :
    PyM.setSelf st st0 evs = .ok () st evs := rfl

@[simp] theorem PyM.emit_app (e : Event) (st : LightSwitch)
    (evs : List Event) :
    PyM.emit e st evs = .ok () st (evs ++ [e]) := rfl

@[simp] theorem PyM.raise_app (e : PyErr) (st : LightSwitch)
    (evs : List Event) :
    (PyM.raise e : PyM α) st evs = .err e st evs := rfl

@[simp] theorem PyM.attr_app (a : Option α) (st : LightSwitch)
    (evs : List Event) :
    PyM.attr a st evs =
      match a with
      | some v => .ok v st evs
      | none => .err .attributeError st evs := rfl

@[simp] theorem PyM.toInt_app (payload : String) (st : LightSwitch)
    (evs : List Event) :
    PyM.toInt payload st evs =
      match pyInt payload with
      | some v => .ok v st evs
      | none => .err .valueError st evs := rfl

@[simp] theorem PyM.ite_app (c : Prop) [Decidable c] (t e : PyM α)
    (st : LightSwitch) (evs : List Event) :
    (if c then t else e) st evs =
      if c then t st evs else e st evs := by
  split <;> rfl

/-- Claim C6: for every Switch, on its command topic, payload "ON"
transmits the configured on-code exactly once and publishes "ON"
retained to the state topic; "OFF" symmetrically; any other payload
produces neither a transmission nor a publish. -/
theorem switch_command_on_off_exact (sw : Switch) (topic payload : String)
    (h : topic = sw.command_topic) :
    (payload = "ON" →
      sw.handleMessage topic payload =
        [.transmit sw.rf_code_on sw.rf_protocol sw.rf_pulse_length
           sw.rf_repeat,
         .publish sw.state_topic (.s "ON") true]) ∧
    (payload = "OFF" →
      sw.handleMessage topic payload =
        [.transmit sw.rf_code_off sw.rf_protocol sw.rf_pulse_length
           sw.rf_repeat,
         .publish sw.state_topic (.s "OFF") true]) ∧
    (payload ≠ "ON" → payload ≠ "OFF" →
      sw.handleMessage topic payload = []) := by
  subst h
  refine ⟨fun h1 => ?_, fun h1 => ?_, fun h1 h2 => ?_⟩ <;>
    simp [Switch.handleMessage, h1, *]

/-- Concrete instantiation of switch_command_on_off_exact. -/
theorem switch_command_on_off_exact_witness :
    (Switch.init "tp" "dp" "host" "mac" "id" "S" "ic" 5 6 1 none
      (some 10)).handleMessage (commandTopicOf "tp" "host" "id") "ON" =
      [.transmit 5 1 none (some 10),
       .publish (stateTopicOf "tp" "host" "id") (.s "ON") true] :=
  (switch_command_on_off_exact _ _ "ON" rfl).1 rfl

/-- Claim C1: for a LightSwitch with effects configured whose onOffState
is not ON, a valid brightness command first transmits the on-action and
publishes "ON" retained to the state topic, then transmits the level-b
brightness action and publishes b retained to the brightness state topic
and "OFF" retained to the effect state topic, in exactly that order, and
sets the local state to ON. -/
theorem light_race_on_first
    (tp dp hostname mac entity_id nm ic : String)
    (onC offC proto : Int) (pl rp : Option Int)
    (cs : List Int) (effs : List (String × Int)) (heff : effs ≠ [])
    (st0 : Option String) (bs0 : Option Int) (hst : st0 ≠ some "ON")
    (payload : String) (b : Int) (hb : pyInt payload = some b)
    (h1 : 1 ≤ b) (h2 : b ≤ (cs.length : Int)) :
    let ls : LightSwitch :=
      { LightSwitch.init tp dp hostname mac entity_id nm ic onC offC
          (some cs) (some effs) proto pl rp with
        state := st0, brightness_state := bs0 }
    let r := ls.handleMessage ls.brightness_command_topic payload
    r.err = none ∧
    r.events =
      [.transmit onC proto pl rp,
       .publish (stateTopicOf tp hostname entity_id) (.s "ON") true,
       .transmit (cs.getD (b - 1).toNat 0) proto pl rp,
       .publish (stateTopicOf tp hostname entity_id ++ "/brightness")
         (.i b) true,
       .publish (stateTopicOf tp hostname entity_id ++ "/effect")
         (.s "OFF") true] ∧
    r.self.state = some "ON" := by
  intro ls r
  have heff' : effs.length > 0 := List.length_pos.mpr heff
  have hb1 := bct_ne_state (stateTopicOf tp hostname entity_id)
  have hb2 := bct_ne_bst (stateTopicOf tp hostname entity_id)
  have hb3 := bct_ne_cmd (stateTopicOf tp hostname entity_id)
  have hb4 := bct_ne_ect (stateTopicOf tp hostname entity_id)
  have hc1 : ((cs.length : Int) > b - 1) := by omega
  have hc2 : (b - 1 ≥ 0) := by omega
  simp only [ls, r, LightSwitch.handleMessage, LightSwitch.handleMessageM,
    LightSwitch.init, LightSwitch.setBrightnessM, LightSwitch.sendBrightnessM,
    LightSwitch.sendActionM, commandTopicOf, PyM.bind_app, PyM.pure_app,
    PyM.purep_app, PyM.getSelf_app, PyM.setSelf_app, PyM.emit_app,
    PyM.raise_app, PyM.attr_app, PyM.toInt_app, PyM.ite_app, hb,
    heff', decide_True, if_true, if_false]
  simp [hb1, hb2, hb3, hb4, hst, hc1, hc2, heff']

/-- Concrete instantiation of light_race_on_first. -/
theorem light_race_on_first_witness :
    ((({ LightSwitch.init "tp" "dp" "host" "mac" "id" "L" "ic" 11 12
        (some [21,22,23,24]) (some [("Strobe",31)]) 1 none (some 10) with
        state := none, brightness_state := none } : LightSwitch)).handleMessage
      "tp/host/id/brightness/set" "4").events =
      [.transmit 11 1 none (some 10),
       .publish "tp/host/id" (.s "ON") true,
       .transmit 24 1 none (some 10),
       .publish "tp/host/id/brightness" (.i 4) true,
       .publish "tp/host/id/effect" (.s "OFF") true] :=
  (light_race_on_first "tp" "dp" "host" "mac" "id" "L" "ic" 11 12 1 none
    (some 10) [21,22,23,24] [("Strobe",31)] (by decide) none none
    (by decide) "4" 4 rfl (by decide) (by decide)).2.1

/-- Claim C7: with onOffState already ON, the same valid brightness
command handled twice in a row leaves the entity unchanged and produces
two identical transmissions and two identical pairs of retained
publishes, with no de-duplication. -/
theorem light_brightness_idempotent
    (tp dp hostname mac entity_id nm ic : String)
    (onC offC proto : Int) (pl rp : Option Int)
    (cs : List Int) (effs : List (String × Int)) (heff : effs ≠ [])
    (bs0 : Option Int)
    (payload : String) (b : Int) (hb : pyInt payload = some b)
    (h1 : 1 ≤ b) (h2 : b ≤ (cs.length : Int)) :
    let ls : LightSwitch :=
      { LightSwitch.init tp dp hostname mac entity_id nm ic onC offC
          (some cs) (some effs) proto pl rp with
        state := some "ON", brightness_state := bs0 }
    let r1 := ls.handleMessage ls.brightness_command_topic payload
    let r2 := r1.self.handleMessage ls.brightness_command_topic payload
    r1.err = none ∧ r2.err = none ∧ r1.self = ls ∧
    r1.events =
      [.transmit (cs.getD (b - 1).toNat 0) proto pl rp,
       .publish (stateTopicOf tp hostname entity_id ++ "/brightness")
         (.i b) true,
       .publish (stateTopicOf tp hostname entity_id ++ "/effect")
         (.s "OFF") true] ∧
    r2.events = r1.events := by
  intro ls r1 r2
  have heff2 : effs.length > 0 := List.length_pos.mpr heff
  have hb1 := bct_ne_state (stateTopicOf tp hostname entity_id)
  have hb2 := bct_ne_bst (stateTopicOf tp hostname entity_id)
  have hb3 := bct_ne_cmd (stateTopicOf tp hostname entity_id)
  have hb4 := bct_ne_ect (stateTopicOf tp hostname entity_id)
  have hc1 : ((cs.length : Int) > b - 1) := by omega
  have hc2 : (b - 1 ≥ 0) := by omega
  have key : ls.handleMessage ls.brightness_command_topic payload =
      ⟨none, ls,
       [.transmit (cs.getD (b - 1).toNat 0) proto pl rp,
        .publish (stateTopicOf tp hostname entity_id ++ "/brightness")
          (.i b) true,
        .publish (stateTopicOf tp hostname entity_id ++ "/effect")
          (.s "OFF") true]⟩ := by
    simp only [ls, LightSwitch.handleMessage, LightSwitch.handleMessageM,
      LightSwitch.init, LightSwitch.setBrightnessM,
      LightSwitch.sendBrightnessM, LightSwitch.sendActionM, commandTopicOf,
      PyM.bind_app, PyM.pure_app, PyM.purep_app, PyM.getSelf_app,
      PyM.setSelf_app, PyM.emit_app, PyM.raise_app, PyM.attr_app,
      PyM.toInt_app, PyM.ite_app, hb, heff2, decide_True, if_true, if_false]
    simp [hb1, hb2, hb3, hb4, hc1, hc2, heff2]
  refine ⟨?_, ?_, ?_, ?_, ?_⟩ <;> simp only [r1, r2, ls, key]

/-- Counterexample to claim C3 as stated: with onOffState unknown, an
out-of-range brightness command (level 0 against a 2-entry code table)
still transmits the on-action and publishes "ON" retained, because the
race fix runs before the range check. -/
theorem light_oob_brightness_still_transmits_on :
    ((({ LightSwitch.init "tp" "dp" "host" "mac" "id" "L" "ic" 11 12
        (some [21, 22]) (some [("E", 31)]) 1 none (some 10) with
        state := none, brightness_state := none } : LightSwitch)).handleMessage
      "tp/host/id/brightness/set" "0").events =
      [.transmit 11 1 none (some 10),
       .publish "tp/host/id" (.s "ON") true] := by rfl

/-- Claim C3 (amended): an out-of-range brightness level never causes a
brightness transmission or a brightness/effect publish and raises no
error; when onOffState is already ON the handler is a complete no-op,
and otherwise only the race-fix on-action transmission and retained "ON"
state publish occur. -/
theorem light_brightness_oob_noop
    (tp dp hostname mac entity_id nm ic : String)
    (onC offC proto : Int) (pl rp : Option Int)
    (cs : List Int) (effs : List (String × Int)) (heff : effs ≠ [])
    (st0 : Option String) (bs0 : Option Int)
    (payload : String) (b : Int) (hb : pyInt payload = some b)
    (hoob : b < 1 ∨ (cs.length : Int) < b) :
    let ls : LightSwitch :=
      { LightSwitch.init tp dp hostname mac entity_id nm ic onC offC
          (some cs) (some effs) proto pl rp with
        state := st0, brightness_state := bs0 }
    let r := ls.handleMessage ls.brightness_command_topic payload
    r.err = none ∧
    (st0 = some "ON" → r.events = []) ∧
    (st0 ≠ some "ON" →
      r.events =
        [.transmit onC proto pl rp,
         .publish (stateTopicOf tp hostname entity_id) (.s "ON") true]) := by
  intro ls r
  have heff2 : effs.length > 0 := List.length_pos.mpr heff
  have hb1 := bct_ne_state (stateTopicOf tp hostname entity_id)
  have hb2 := bct_ne_bst (stateTopicOf tp hostname entity_id)
  have hb3 := bct_ne_cmd (stateTopicOf tp hostname entity_id)
  have hb4 := bct_ne_ect (stateTopicOf tp hostname entity_id)
  have hcond : ¬(b - 1 < (cs.length : Int) ∧ 1 ≤ b) := by omega
  by_cases hON : st0 = some "ON"
  · subst hON
    have key : r = ⟨none, ls, []⟩ := by
      simp only [r, ls, LightSwitch.handleMessage, LightSwitch.handleMessageM,
        LightSwitch.init, LightSwitch.setBrightnessM,
        LightSwitch.sendBrightnessM, LightSwitch.sendActionM, commandTopicOf,
        PyM.bind_app, PyM.pure_app, PyM.purep_app, PyM.getSelf_app,
        PyM.setSelf_app, PyM.emit_app, PyM.raise_app, PyM.attr_app,
        PyM.toInt_app, PyM.ite_app, hb, heff2, decide_True, if_true,
        if_false]
      simp [hb1, hb2, hb3, hb4, hcond, heff2]
    exact ⟨by rw [key], fun _ => by rw [key], fun hc => absurd rfl hc⟩
  · have key : r = ⟨none, { ls with state := some "ON" },
        [.transmit onC proto pl rp,
         .publish (stateTopicOf tp hostname entity_id) (.s "ON") true]⟩ := by
      simp only [r, ls, LightSwitch.handleMessage, LightSwitch.handleMessageM,
        LightSwitch.init, LightSwitch.setBrightnessM,
        LightSwitch.sendBrightnessM, LightSwitch.sendActionM, commandTopicOf,
        PyM.bind_app, PyM.pure_app, PyM.purep_app, PyM.getSelf_app,
        PyM.setSelf_app, PyM.emit_app, PyM.raise_app, PyM.attr_app,
        PyM.toInt_app, PyM.ite_app, hb, heff2, decide_True, if_true,
        if_false]
      simp [hb1, hb2, hb3, hb4, hcond, hON, heff2]
    exact ⟨by rw [key], fun h => absurd h hON, fun _ => by rw [key]⟩

/-- Concrete instantiation of light_brightness_oob_noop. -/
theorem light_brightness_oob_noop_witness :
    ((({ LightSwitch.init "tp" "dp" "host" "mac" "id" "L" "ic" 11 12
        (some [21, 22]) (some [("E", 31)]) 1 none (some 10) with
        state := some "ON", brightness_state := none } :
          LightSwitch)).handleMessage "tp/host/id/brightness/set" "3").events
      = [] :=
  (light_brightness_oob_noop "tp" "dp" "host" "mac" "id" "L" "ic" 11 12 1
    none (some 10) [21, 22] [("E", 31)] (by decide) (some "ON") none "3" 3
    rfl (by decide)).2.1 rfl

/-- Claim C4: for every LightSwitch with a configured brightness code
list and every level b in [1, N], send_brightness transmits exactly the
(b-1)-th (0-based) element of the code list and reports success. -/
theorem light_brightness_maps_to_code
    (ls : LightSwitch) (cs : List Int) (hcs : ls.brightness_codes = some cs)
    (b : Int) (h1 : 1 ≤ b) (h2 : b ≤ (cs.length : Int)) :
    ls.sendBrightness b =
      .ok true ls
        [.transmit (cs.getD (b - 1).toNat 0) ls.rf_protocol
          ls.rf_pulse_length ls.rf_repeat] := by
  have hc1 : ((cs.length : Int) > b - 1) := by omega
  have hc2 : (b - 1 ≥ 0) := by omega
  simp only [LightSwitch.sendBrightness, LightSwitch.sendBrightnessM,
    LightSwitch.sendActionM, PyM.bind_app, PyM.pure_app, PyM.purep_app,
    PyM.getSelf_app, PyM.setSelf_app, PyM.emit_app, PyM.raise_app,
    PyM.attr_app, PyM.toInt_app, PyM.ite_app, hcs]
  simp [hc1, hc2]

/-- Concrete instantiation of light_brightness_maps_to_code. -/
theorem light_brightness_maps_to_code_witness :
    (LightSwitch.init "tp" "dp" "host" "mac" "id" "L" "ic" 11 12
      (some [21, 22, 23]) (some [("E", 31)]) 1 none
      (some 10)).sendBrightness 2 =
      .ok true
        (LightSwitch.init "tp" "dp" "host" "mac" "id" "L" "ic" 11 12
          (some [21, 22, 23]) (some [("E", 31)]) 1 none (some 10))
        [.transmit 22 1 none (some 10)] :=
  light_brightness_maps_to_code _ [21, 22, 23] rfl 2 (by decide) (by decide)

/-- Claim C10: on the brightness state topic or the brightness command
topic, handle_message converts the payload with an unguarded int(): it
completes without error only if the payload parses as a decimal integer,
and a non-integer payload makes it raise a ValueError rather than act as
a silent no-op. -/
theorem light_brightness_int_parse_raises
    (tp dp hostname mac entity_id nm ic : String)
    (onC offC proto : Int) (pl rp : Option Int)
    (codes0 : Option (List Int)) (effs0 : Option (List (String × Int)))
    (st0 : Option String) (bs0 : Option Int)
    (topic payload : String)
    (ht : topic = stateTopicOf tp hostname entity_id ++ "/brightness" ∨
          topic = stateTopicOf tp hostname entity_id ++ "/brightness"
            ++ "/set") :
    let ls : LightSwitch :=
      { LightSwitch.init tp dp hostname mac entity_id nm ic onC offC
          codes0 effs0 proto pl rp with
        state := st0, brightness_state := bs0 }
    let r := ls.handleMessage topic payload
    (pyInt payload = none → r.err = some .valueError) ∧
    (r.err = none → ∃ v, pyInt payload = some v) := by
  intro ls r
  have hs1 := bst_ne_state (stateTopicOf tp hostname entity_id)
  have hs2 := bst_ne_cmd (stateTopicOf tp hostname entity_id)
  have hb1 := bct_ne_state (stateTopicOf tp hostname entity_id)
  have hb2 := bct_ne_bst (stateTopicOf tp hostname entity_id)
  have hb3 := bct_ne_cmd (stateTopicOf tp hostname entity_id)
  have hmain : pyInt payload = none → r.err = some .valueError := by
    intro hp
    rcases ht with ht | ht <;> subst ht <;>
      by_cases hON : st0 = some "ON" <;>
        (simp only [r, ls, LightSwitch.handleMessage,
          LightSwitch.handleMessageM, LightSwitch.init,
          LightSwitch.setBrightnessM, LightSwitch.sendBrightnessM,
          LightSwitch.sendActionM, commandTopicOf, PyM.bind_app,
          PyM.pure_app, PyM.purep_app, PyM.getSelf_app, PyM.setSelf_app,
          PyM.emit_app, PyM.raise_app, PyM.attr_app, PyM.toInt_app,
          PyM.ite_app, hp, if_true, if_false]
         simp [hs1, hs2, hb1, hb2, hb3, hON, hp])
  refine ⟨hmain, fun hok => ?_⟩
  cases hp : pyInt payload with
  | none => rw [hmain hp] at hok; exact absurd hok (by simp)
  | some v => exact ⟨v, rfl⟩

/-- Concrete instantiation of light_brightness_int_parse_raises. -/
theorem light_brightness_int_parse_raises_witness :
    pyInt "full" = none ∧
    ((({ LightSwitch.init "tp" "dp" "host" "mac" "id" "L" "ic" 11 12
        (some [21, 22]) (some [("E", 31)]) 1 none (some 10) with
        state := none, brightness_state := none } :
          LightSwitch)).handleMessage "tp/host/id/brightness" "full").err =
      some .valueError :=
  ⟨rfl,
   (light_brightness_int_parse_raises "tp" "dp" "host" "mac" "id" "L" "ic"
      11 12 1 none (some 10) (some [21, 22]) (some [("E", 31)]) none none
      "tp/host/id/brightness" "full" (Or.inl rfl)).1 rfl⟩

/-- Claim C5: with effects configured, an effect command "Off" reuses
the brightness-set path at the last known brightness level (1 when
unknown), transmitting that level's code and publishing the level
retained to the brightness state topic and "OFF" retained to the effect
state topic (twice, once from set_brightness and once from the Off
branch); no dedicated off-effect RF code is transmitted. -/
theorem light_effect_off_reuses_brightness
    (tp dp hostname mac entity_id nm ic : String)
    (onC offC proto : Int) (pl rp : Option Int)
    (cs : List Int) (hcs0 : cs ≠ [])
    (effs : List (String × Int)) (heff : effs ≠ [])
    (st0 : Option String) (bs0 : Option Int)
    (hbs : bs0 = none ∨
      ∃ v, bs0 = some v ∧ 1 ≤ v ∧ v ≤ (cs.length : Int)) :
    let ls : LightSwitch :=
      { LightSwitch.init tp dp hostname mac entity_id nm ic onC offC
          (some cs) (some effs) proto pl rp with
        state := st0, brightness_state := bs0 }
    let r := ls.handleMessage
      (stateTopicOf tp hostname entity_id ++ "/effect" ++ "/set") "Off"
    r.err = none ∧
    r.events =
      [.transmit (cs.getD ((bs0.getD 1) - 1).toNat 0) proto pl rp,
       .publish (stateTopicOf tp hostname entity_id ++ "/brightness")
         (.i (bs0.getD 1)) true,
       .publish (stateTopicOf tp hostname entity_id ++ "/effect")
         (.s "OFF") true,
       .publish (stateTopicOf tp hostname entity_id ++ "/effect")
         (.s "OFF") true] := by
  intro ls r
  have heff2 : effs.length > 0 := List.length_pos.mpr heff
  have hlen : (0 : Int) < cs.length := by
    have := List.length_pos.mpr hcs0
    omega
  have he1 := ect_ne_state (stateTopicOf tp hostname entity_id)
  have he2 := ect_ne_bst (stateTopicOf tp hostname entity_id)
  have he3 := ect_ne_cmd (stateTopicOf tp hostname entity_id)
  have he4 := (bct_ne_ect (stateTopicOf tp hostname entity_id)).symm
  rcases hbs with rfl | ⟨v, rfl, hv1, hv2⟩
  · simp only [r, ls, LightSwitch.handleMessage, LightSwitch.handleMessageM,
      LightSwitch.init, LightSwitch.setBrightnessM,
      LightSwitch.sendBrightnessM, LightSwitch.sendActionM, commandTopicOf,
      PyM.bind_app, PyM.pure_app, PyM.purep_app, PyM.getSelf_app,
      PyM.setSelf_app, PyM.emit_app, PyM.raise_app, PyM.attr_app,
      PyM.toInt_app, PyM.ite_app, heff2, decide_True, if_true, if_false]
    simp [he1, he2, he3, he4, heff2, hlen]
  · have hv0 : ¬(v = 0) := by omega
    have hc1 : v - 1 < (cs.length : Int) := by omega
    simp only [r, ls, LightSwitch.handleMessage, LightSwitch.handleMessageM,
      LightSwitch.init, LightSwitch.setBrightnessM,
      LightSwitch.sendBrightnessM, LightSwitch.sendActionM, commandTopicOf,
      PyM.bind_app, PyM.pure_app, PyM.purep_app, PyM.getSelf_app,
      PyM.setSelf_app, PyM.emit_app, PyM.raise_app, PyM.attr_app,
      PyM.toInt_app, PyM.ite_app, heff2, decide_True, if_true, if_false]
    simp [he1, he2, he3, he4, heff2, hv0, hc1, hv1]

/-- Concrete instantiation of light_effect_off_reuses_brightness. -/
theorem light_effect_off_reuses_brightness_witness :
    ((({ LightSwitch.init "tp" "dp" "host" "mac" "id" "L" "ic" 11 12
        (some [21, 22, 23]) (some [("E", 31)]) 1 none (some 10) with
        state := some "ON", brightness_state := some 3 } :
          LightSwitch)).handleMessage "tp/host/id/effect/set" "Off").events =
      [.transmit 23 1 none (some 10),
       .publish "tp/host/id/brightness" (.i 3) true,
       .publish "tp/host/id/effect" (.s "OFF") true,
       .publish "tp/host/id/effect" (.s "OFF") true] :=
  (light_effect_off_reuses_brightness "tp" "dp" "host" "mac" "id" "L" "ic"
    11 12 1 none (some 10) [21, 22, 23] (by decide) [("E", 31)] (by decide)
    (some "ON") (some 3) (Or.inr ⟨3, rfl, by decide, by decide⟩)).2

/-- Claim C2 evaluated at the failing input: an effect-command payload
that is neither "Off" nor a configured effect name makes handle_message
raise a KeyError (the dict lookup uses indexing, not .get, so the
is-not-None guard is dead); no transmission and no publish occur, but
the handler does not complete without error as the spec requires. -/
theorem light_unknown_effect_raises_keyerror :
    ((LightSwitch.init "tp" "dp" "host" "mac" "id" "L" "ic" 11 12
      (some [21, 22]) (some [("Strobe", 31)]) 1 none
      (some 10)).handleMessage "tp/host/id/effect/set" "Rainbow").err =
      some .keyError ∧
    ((LightSwitch.init "tp" "dp" "host" "mac" "id" "L" "ic" 11 12
      (some [21, 22]) (some [("Strobe", 31)]) 1 none
      (some 10)).handleMessage "tp/host/id/effect/set" "Rainbow").events =
      [] :=
  ⟨rfl, rfl⟩

@[simp] theorem except_bind_ok (a : α) (f : α → Except ε β) :
    (Except.ok a >>= f) = f a := rfl

@[simp] theorem except_bind_error (e : ε) (f : α → Except ε β) :
    ((Except.error e : Except ε α) >>= f) = Except.error e := rfl

/-- Claim C9: a LightSwitch whose effects are absent or empty never has
the effect topic attributes, so both build_discovery and subscribe fail
(AttributeError, or TypeError from len(None) first); build_discovery
succeeds exactly when a non-empty effect mapping and a brightness code
list are configured, and subscribe succeeds exactly when a non-empty
effect mapping is configured. -/
theorem light_no_effects_discovery_subscribe_fail
    (tp dp hostname mac entity_id nm ic : String)
    (onC offC proto : Int) (pl rp : Option Int)
    (codes0 : Option (List Int)) (effs0 : Option (List (String × Int)))
    (ls : LightSwitch)
    (hls : ls = LightSwitch.init tp dp hostname mac entity_id nm ic onC
      offC codes0 effs0 proto pl rp)
    (hasEff : Bool)
    (hhe : hasEff = (match effs0 with
      | none => false
      | some e => decide (e.length > 0))) :
    (hasEff = false →
      (∀ d, ls.buildDiscovery ≠ Except.ok d) ∧
      (∀ ts, ls.subscribeTopics ≠ Except.ok ts)) ∧
    ((∃ d, ls.buildDiscovery = Except.ok d) ↔
      (hasEff = true ∧ ∃ cs, codes0 = some cs)) ∧
    ((∃ ts, ls.subscribeTopics = Except.ok ts) ↔ hasEff = true) := by
  subst hls
  subst hhe
  rcases effs0 with _ | e
  · rcases codes0 with _ | cs <;>
      simp [LightSwitch.init, LightSwitch.buildDiscovery,
        LightSwitch.subscribeTopics]
  · by_cases he : e.length > 0 <;>
      rcases codes0 with _ | cs <;>
        simp [LightSwitch.init, LightSwitch.buildDiscovery,
          LightSwitch.subscribeTopics, he]

/-- Concrete instantiation of light_no_effects_discovery_subscribe_fail. -/
theorem light_no_effects_discovery_subscribe_fail_witness :
    (LightSwitch.init "tp" "dp" "host" "mac" "id" "L" "ic" 1 2 (some [3])
      none 1 none none).buildDiscovery ≠ Except.ok [] :=
  ((light_no_effects_discovery_subscribe_fail "tp" "dp" "host" "mac" "id"
    "L" "ic" 1 2 1 none none (some [3]) none _ rfl false rfl).1 rfl).1 []

/-- publish_entity_discovery_messages publishes, in registry order, each
entity's discovery payload to its discovery topic, not retained, when
every build_discovery succeeds. -/
theorem pubAll_ok (es : List Entity)
    (hok : ∀ e ∈ es, ∃ d, e.buildDiscovery = Except.ok d) :
    publishEntityDiscoveryMessages es =
      (none, es.map fun e =>
        Event.publish e.discoveryTopic (.j e.discOr) false) := by
  induction es with
  | nil => rfl
  | cons e rest ih =>
    obtain ⟨d, hd⟩ := hok e (List.mem_cons_self e rest)
    have h1 : e.initialPublish =
        Except.ok [Event.publish e.discoveryTopic (.j e.discOr) false] := by
      simp [Entity.initialPublish, Entity.discOr, hd]
    simp [publishEntityDiscoveryMessages, h1,
      ih (fun x hx => hok x (List.mem_cons_of_mem e hx))]

/-- Claim C8: with a configured birth topic and payload, an inbound
message matching both makes on_message publish every registered entity's
discovery payload to its discovery topic (not retained) before any
entity handles the message; nothing in on_message depends on whether
discovery was already published. -/
theorem birth_message_republishes_discovery
    (cfg : HaConfig) (bt bp : String)
    (hbt : cfg.birth_topic = some bt) (hbp : cfg.birth_payload = some bp)
    (es : List Entity)
    (hok : ∀ e ∈ es, ∃ d, e.buildDiscovery = Except.ok d) :
    ∃ rest, (onMessage cfg es bt bp).2.2 =
      (es.map fun e =>
        Event.publish e.discoveryTopic (.j e.discOr) false) ++ rest := by
  have hb : birthMatch cfg bt bp = true := by simp [birthMatch, hbt, hbp]
  refine ⟨(dispatchAll es bt bp).2.2, ?_⟩
  simp [onMessage, hb, pubAll_ok es hok]

/-- Concrete instantiation of birth_message_republishes_discovery. -/
theorem birth_message_republishes_discovery_witness :
    ∃ rest,
      (onMessage ⟨some "homeassistant/status", some "online"⟩
        [Entity.sw (Switch.init "tp" "dp" "host" "mac" "id" "S" "ic" 5 6 1
          none none)] "homeassistant/status" "online").2.2 =
      [Event.publish
        (Entity.sw (Switch.init "tp" "dp" "host" "mac" "id" "S" "ic" 5 6 1
          none none)).discoveryTopic
        (.j (Entity.sw (Switch.init "tp" "dp" "host" "mac" "id" "S" "ic" 5
          6 1 none none)).discOr) false] ++ rest :=
  birth_message_republishes_discovery
    ⟨some "homeassistant/status", some "online"⟩ "homeassistant/status"
    "online" rfl rfl
    [Entity.sw (Switch.init "tp" "dp" "host" "mac" "id" "S" "ic" 5 6 1
      none none)]
    (by
      intro e he
      simp only [List.mem_singleton] at he
      subst he
      exact ⟨_, rfl⟩)

/-- Concrete instantiation of light_brightness_idempotent. -/
theorem light_brightness_idempotent_witness :
    ((({ LightSwitch.init "tp" "dp" "host" "mac" "id" "L" "ic" 11 12
        (some [21, 22, 23]) (some [("E", 31)]) 1 none (some 10) with
        state := some "ON", brightness_state := none } :
          LightSwitch)).handleMessage "tp/host/id/brightness/set"
      "2").events =
      [.transmit 22 1 none (some 10),
       .publish "tp/host/id/brightness" (.i 2) true,
       .publish "tp/host/id/effect" (.s "OFF") true] ∧
    (((({ LightSwitch.init "tp" "dp" "host" "mac" "id" "L" "ic" 11 12
        (some [21, 22, 23]) (some [("E", 31)]) 1 none (some 10) with
        state := some "ON", brightness_state := none } :
          LightSwitch)).handleMessage "tp/host/id/brightness/set"
      "2").self.handleMessage "tp/host/id/brightness/set" "2").events =
      [.transmit 22 1 none (some 10),
       .publish "tp/host/id/brightness" (.i 2) true,
       .publish "tp/host/id/effect" (.s "OFF") true] :=
  have h := light_brightness_idempotent "tp" "dp" "host" "mac" "id" "L"
    "ic" 11 12 1 none (some 10) [21, 22, 23] [("E", 31)] (by decide) none
    "2" 2 rfl (by decide) (by decide)
  ⟨h.2.2.2.1, h.2.2.2.2.trans h.2.2.2.1⟩
